import Mathlib

/-!
Shallow embedding of the environment-detection and health-analysis core of the
`ai-driven-devops` repository (files `environment_detector.py` and
`.github/actions/ai-observability/ai-agent.py`), together with theorems that
settle the frozen specification claims about it.

Conventions of the embedding:
* Python floats are modelled as rationals (`ℚ`); the numeric literals of the
  source (`0.3`, `0.01`, `0.9`, …) are taken at their decimal value.
* `os.getenv` results are `Option String`; Python truthiness of such a value
  (`None` and `""` are falsy) is `pyTruthy`.
* External probes (subprocess calls, HTTP metadata queries, service
  discovery) are abstracted as boolean / optional fields of an input record:
  the source wraps every such call in `try/except` and reduces it to exactly
  such a value, so a probe that raises is the same as a probe that reports
  `false` / `none`.
* Python dict insertion (`d[k] = v`) is `dictInsert` on an association list:
  replace in place when the key exists, append otherwise.
-/

/-- Python truthiness of an optional environment string: `None` and `""` are
falsy, every other string is truthy. -/
def pyTruthy : Option String → Bool
  | none => false
  | some s => s ≠ ""

/-- `os.getenv(var, default)`: the default applies only when the variable is
absent, not when it is set to the empty string. -/
def getenvD : Option String → String → String
  | none, d => d
  | some s, _ => s

/-- Python dict insertion `d[k] = v` on an insertion-ordered association
list: replace the value in place when the key is present, append otherwise. -/
def dictInsert {α : Type} (d : List (String × α)) (k : String) (v : α) :
    List (String × α) :=
  if d.any (fun e => e.1 = k) then
    d.map (fun e => if e.1 = k then (k, v) else e)
  else
    d ++ [(k, v)]

/-- `EnvironmentType` enum of `environment_detector.py`. -/
inductive EnvironmentType where
  | github_actions
  | aws_eks
  | google_gke
  | azure_aks
  | local_k8s
  | docker_desktop
  | simulation
  | unknown
  deriving DecidableEq, Repr

/-- The inputs that `SmartEnvironmentDetector` reads from the process
environment and from its external probes.  Each probe field records the
outcome of the corresponding helper (`_check_kubernetes_access`,
`_is_running_in_eks`, …); the source catches every exception inside those
helpers and turns it into the same negative outcome. -/
structure DetectEnv where
  githubActions : Option String
  awsAccessKeyId : Option String
  awsRoleArn : Option String
  googleAppCreds : Option String
  azureClientId : Option String
  awsRegion : Option String
  awsDefaultRegion : Option String
  googleCloudProject : Option String
  azureSubscriptionId : Option String
  simulationVar : Option String
  promUrlVar : Option String
  grafanaUrlVar : Option String
  kubectlClientOk : Bool
  inEks : Bool
  inGke : Bool
  inAks : Bool
  clusterInfoOk : Bool
  clusterInfoLocal : Bool
  dockerDesktopInfo : Bool
  clusterPromUrl : Option String
  clusterGrafanaUrl : Option String

/-- `EnvironmentConfig` dataclass (the `recommendations` field, a bag of
human-readable advice strings never read by any logic the claims concern, is
not carried). -/
structure EnvironmentConfig where
  envType : EnvironmentType
  kubernetesAvailable : Bool
  cloudProvider : Option String
  monitoringEndpoints : List (String × String)
  authMethod : String
  capabilities : List (String × Bool)

/-- `_detect_cloud_provider`. -/
def detectCloudProvider (env : DetectEnv) : Option String :=
  if pyTruthy env.awsRegion || pyTruthy env.awsDefaultRegion then some "aws"
  else if pyTruthy env.googleCloudProject then some "gcp"
  else if pyTruthy env.azureSubscriptionId then some "azure"
  else none

/-- `_get_cluster_monitoring_endpoints`: the kubectl service-discovery loop is
abstracted by the two optional discovered URLs. -/
def getClusterMonitoringEndpoints (env : DetectEnv) : List (String × String) :=
  (match env.clusterPromUrl with
   | some u => [("prometheus", u)]
   | none => []) ++
  (match env.clusterGrafanaUrl with
   | some u => [("grafana", u)]
   | none => [])

/-- `_get_external_monitoring_endpoints` (the `"external": True` flag entry,
which is not a URL and is never read, is not carried). -/
def getExternalMonitoringEndpoints (env : DetectEnv) : List (String × String) :=
  [("prometheus", getenvD env.promUrlVar ""),
   ("grafana", getenvD env.grafanaUrlVar "")]

/-- `_get_aws_monitoring_endpoints`. -/
def getAwsMonitoringEndpoints (env : DetectEnv) : List (String × String) :=
  [("cloudwatch",
    "https://monitoring." ++ getenvD env.awsRegion "us-east-1" ++ ".amazonaws.com"),
   ("prometheus", getenvD env.promUrlVar ""),
   ("grafana", getenvD env.grafanaUrlVar "")]

/-- `_get_gcp_monitoring_endpoints`. -/
def getGcpMonitoringEndpoints (env : DetectEnv) : List (String × String) :=
  [("stackdriver",
    "https://monitoring.googleapis.com/v1/projects/" ++ getenvD env.googleCloudProject ""),
   ("prometheus", getenvD env.promUrlVar ""),
   ("grafana", getenvD env.grafanaUrlVar "")]

/-- `_get_azure_monitoring_endpoints`. -/
def getAzureMonitoringEndpoints (env : DetectEnv) : List (String × String) :=
  [("azure_monitor", "https://management.azure.com"),
   ("prometheus", getenvD env.promUrlVar ""),
   ("grafana", getenvD env.grafanaUrlVar "")]

/-- `_get_local_monitoring_endpoints`. -/
def getLocalMonitoringEndpoints : List (String × String) :=
  [("prometheus", "http://localhost:9090"),
   ("grafana", "http://localhost:3000")]

/-- `_get_docker_desktop_endpoints`. -/
def getDockerDesktopEndpoints : List (String × String) :=
  [("prometheus", "http://localhost:9090"),
   ("grafana", "http://localhost:3000"),
   ("docker_api", "unix:///var/run/docker.sock")]

/-- `_get_simulation_endpoints` (again only the URL-valued entries). -/
def getSimulationEndpoints : List (String × String) :=
  [("mock_prometheus", "http://mock-prometheus"),
   ("mock_grafana", "http://mock-grafana")]

/-- `_detect_github_actions`. -/
def detectGithubActions (env : DetectEnv) : Option EnvironmentConfig :=
  if !pyTruthy env.githubActions then none
  else
    let k8s := env.kubectlClientOk
    some
      { envType := EnvironmentType.github_actions
        kubernetesAvailable := k8s
        cloudProvider := detectCloudProvider env
        monitoringEndpoints :=
          if k8s then getClusterMonitoringEndpoints env
          else getExternalMonitoringEndpoints env
        authMethod := if k8s then "service_account" else "api_key"
        capabilities :=
          [("real_time_monitoring", k8s),
           ("predictive_analytics", true),
           ("chaos_simulation", k8s),
           ("external_notifications", true),
           ("ci_cd_integration", true)] }

/-- `_detect_aws_eks`. -/
def detectAwsEks (env : DetectEnv) : Option EnvironmentConfig :=
  if !(pyTruthy env.awsAccessKeyId || pyTruthy env.awsRoleArn) then none
  else if env.inEks then
    some
      { envType := EnvironmentType.aws_eks
        kubernetesAvailable := true
        cloudProvider := some "aws"
        monitoringEndpoints := getAwsMonitoringEndpoints env
        authMethod := "iam_role"
        capabilities :=
          [("real_time_monitoring", true),
           ("predictive_analytics", true),
           ("chaos_simulation", true),
           ("external_notifications", true),
           ("ci_cd_integration", true),
           ("aws_integration", true),
           ("cloudwatch_metrics", true)] }
  else none

/-- `_detect_google_gke`. -/
def detectGoogleGke (env : DetectEnv) : Option EnvironmentConfig :=
  if !pyTruthy env.googleAppCreds && !env.inGke then none
  else
    some
      { envType := EnvironmentType.google_gke
        kubernetesAvailable := true
        cloudProvider := some "gcp"
        monitoringEndpoints := getGcpMonitoringEndpoints env
        authMethod := "workload_identity"
        capabilities :=
          [("real_time_monitoring", true),
           ("predictive_analytics", true),
           ("chaos_simulation", true),
           ("external_notifications", true),
           ("ci_cd_integration", true),
           ("gcp_integration", true),
           ("stackdriver_metrics", true)] }

/-- `_detect_azure_aks`. -/
def detectAzureAks (env : DetectEnv) : Option EnvironmentConfig :=
  if !(pyTruthy env.azureClientId || env.inAks) then none
  else
    some
      { envType := EnvironmentType.azure_aks
        kubernetesAvailable := true
        cloudProvider := some "azure"
        monitoringEndpoints := getAzureMonitoringEndpoints env
        authMethod := "managed_identity"
        capabilities :=
          [("real_time_monitoring", true),
           ("predictive_analytics", true),
           ("chaos_simulation", true),
           ("external_notifications", true),
           ("ci_cd_integration", true),
           ("azure_integration", true),
           ("azure_monitor", true)] }

/-- `_detect_local_kubernetes`. -/
def detectLocalKubernetes (env : DetectEnv) : Option EnvironmentConfig :=
  if !env.kubectlClientOk then none
  else if env.clusterInfoOk && env.clusterInfoLocal then
    some
      { envType := EnvironmentType.local_k8s
        kubernetesAvailable := true
        cloudProvider := none
        monitoringEndpoints := getLocalMonitoringEndpoints
        authMethod := "kubeconfig"
        capabilities :=
          [("real_time_monitoring", true),
           ("predictive_analytics", true),
           ("chaos_simulation", true),
           ("external_notifications", true),
           ("ci_cd_integration", false),
           ("local_development", true)] }
  else none

/-- `_detect_docker_desktop`. -/
def detectDockerDesktop (env : DetectEnv) : Option EnvironmentConfig :=
  if env.dockerDesktopInfo then
    let k8s := env.kubectlClientOk
    some
      { envType := EnvironmentType.docker_desktop
        kubernetesAvailable := k8s
        cloudProvider := none
        monitoringEndpoints := getDockerDesktopEndpoints
        authMethod := if k8s then "kubeconfig" else "docker_api"
        capabilities :=
          [("real_time_monitoring", k8s),
           ("predictive_analytics", true),
           ("chaos_simulation", k8s),
           ("external_notifications", true),
           ("ci_cd_integration", false),
           ("local_development", true),
           ("docker_integration", true)] }
  else none

/-- `_detect_simulation_mode`. -/
def detectSimulationMode (env : DetectEnv) : Option EnvironmentConfig :=
  if (getenvD env.simulationVar "false").toLower = "true" then
    some
      { envType := EnvironmentType.simulation
        kubernetesAvailable := false
        cloudProvider := none
        monitoringEndpoints := getSimulationEndpoints
        authMethod := "none"
        capabilities :=
          [("real_time_monitoring", false),
           ("predictive_analytics", true),
           ("chaos_simulation", true),
           ("external_notifications", true),
           ("ci_cd_integration", true),
           ("simulation_mode", true)] }
  else none

/-- `_create_unknown_config`. -/
def createUnknownConfig : EnvironmentConfig :=
  { envType := EnvironmentType.unknown
    kubernetesAvailable := false
    cloudProvider := none
    monitoringEndpoints := getSimulationEndpoints
    authMethod := "none"
    capabilities :=
      [("real_time_monitoring", false),
       ("predictive_analytics", true),
       ("chaos_simulation", false),
       ("external_notifications", true),
       ("ci_cd_integration", true),
       ("simulation_mode", true)] }

/-- `detect_environment` (first run, empty cache): the detectors are tried in
the fixed order of the `detectors` list, the first one returning a config
wins, and a detector that raises is skipped — which in this embedding is the
same as returning `none`.  When none matches, the unknown fallback config is
used. -/
def detectEnvironment (env : DetectEnv) : EnvironmentConfig :=
  (detectGithubActions env |>.orElse fun _ =>
   detectAwsEks env |>.orElse fun _ =>
   detectGoogleGke env |>.orElse fun _ =>
   detectAzureAks env |>.orElse fun _ =>
   detectLocalKubernetes env |>.orElse fun _ =>
   detectDockerDesktop env |>.orElse fun _ =>
   detectSimulationMode env).getD createUnknownConfig

/-- C3: `detect_environment` evaluates its probes in a fixed priority order
and returns on the first match: whenever the `GITHUB_ACTIONS` marker variable
is present (set to a non-empty string, the source's truthiness test), the
detected profile is the GitHub-Actions one and in particular never one of the
cloud-Kubernetes profiles, regardless of any cloud credentials or cloud
probes also firing. -/
theorem C3_github_actions_priority (env : DetectEnv)
    (h : pyTruthy env.githubActions = true) :
    (detectEnvironment env).envType = EnvironmentType.github_actions ∧
    (detectEnvironment env).envType ∉
      [EnvironmentType.aws_eks, EnvironmentType.google_gke,
       EnvironmentType.azure_aks] := by
  have hdet : detectEnvironment env =
      { envType := EnvironmentType.github_actions
        kubernetesAvailable := env.kubectlClientOk
        cloudProvider := detectCloudProvider env
        monitoringEndpoints :=
          if env.kubectlClientOk then getClusterMonitoringEndpoints env
          else getExternalMonitoringEndpoints env
        authMethod := if env.kubectlClientOk then "service_account" else "api_key"
        capabilities :=
          [("real_time_monitoring", env.kubectlClientOk),
           ("predictive_analytics", true),
           ("chaos_simulation", env.kubectlClientOk),
           ("external_notifications", true),
           ("ci_cd_integration", true)] } := by
    unfold detectEnvironment detectGithubActions
    rw [h]
    rfl
  rw [hdet]
  simp

/-- Concrete witness for C3: the GitHub-Actions marker is set while AWS
credentials are present and every cloud probe fires, yet the detected profile
is the GitHub-Actions one. -/
def githubPlusCloudEnv : DetectEnv :=
  { githubActions := some "true"
    awsAccessKeyId := some "AKIAEXAMPLE"
    awsRoleArn := some "arn:aws:iam::1:role/x"
    googleAppCreds := some "/creds.json"
    azureClientId := some "client-id"
    awsRegion := some "us-east-1"
    awsDefaultRegion := none
    googleCloudProject := some "proj"
    azureSubscriptionId := some "sub"
    simulationVar := none
    promUrlVar := none
    grafanaUrlVar := none
    kubectlClientOk := true
    inEks := true
    inGke := true
    inAks := true
    clusterInfoOk := true
    clusterInfoLocal := true
    dockerDesktopInfo := true
    clusterPromUrl := some "http://prometheus.monitoring.svc.cluster.local"
    clusterGrafanaUrl := none }

/-- Witness for C3 at a concrete environment with all cloud probes firing. -/
theorem C3_github_actions_priority_witness :
    (detectEnvironment githubPlusCloudEnv).envType =
      EnvironmentType.github_actions ∧
    (detectEnvironment githubPlusCloudEnv).envType ∉
      [EnvironmentType.aws_eks, EnvironmentType.google_gke,
       EnvironmentType.azure_aks] :=
  C3_github_actions_priority githubPlusCloudEnv (by decide)

/-- One entry of a pod's `containerStatuses`: the fields the agent reads.
`waiting` is the `reason` of the container's `waiting` state when that state
is present (`""` when the reason key is absent), `none` when the container is
not waiting. -/
structure ContainerStatus where
  restartCount : ℕ
  ready : Bool
  waiting : Option String

/-- One entry of a pod's `conditions` list. -/
structure PodCondition where
  ctype : String
  status : String

/-- The fields of a pod's `status` object read by `analyze_system_health` and
`_calculate_ai_risk_score`.  A missing `phase` key is `none`
(`pod_status.get("phase", "Unknown")` then yields `"Unknown"`); a missing
`conditions` or `containerStatuses` key behaves exactly like the empty
list. -/
structure PodStatus where
  phase : Option String
  conditions : List PodCondition
  containerStatuses : List ContainerStatus

/-- One item of the `kubectl get pods` listing: its metadata name and its
status. -/
structure PodItem where
  name : String
  status : PodStatus

/-- The per-container accumulation step of the loop in
`_calculate_ai_risk_score`: `+20` when the container is not ready, `+30` when
it is waiting with reason `CrashLoopBackOff` or `ImagePullBackOff`. -/
def containerRiskStep (acc : ℚ) (c : ContainerStatus) : ℚ :=
  let acc1 := if !c.ready then acc + 20 else acc
  match c.waiting with
  | some reason =>
      if reason = "CrashLoopBackOff" ∨ reason = "ImagePullBackOff" then acc1 + 30
      else acc1
  | none => acc1

/-- `_calculate_ai_risk_score(pod_status, restarts)`: restart points capped
at 60, `+40` for a non-`Running` phase, the per-container loop, and a final
cap at 100. -/
def calculateAiRiskScore (ps : PodStatus) (restarts : ℕ) : ℚ :=
  let r1 : ℚ := (min (restarts * 20) 60 : ℕ)
  let r2 : ℚ := if ps.phase.getD "Unknown" ≠ "Running" then r1 + 40 else r1
  let r3 : ℚ := ps.containerStatuses.foldl containerRiskStep r2
  min r3 100

/-- The per-container contribution of the specification's risk formula. -/
def containerRisk (c : ContainerStatus) : ℚ :=
  (if !c.ready then 20 else 0) +
  (match c.waiting with
   | some reason =>
       if reason = "CrashLoopBackOff" ∨ reason = "ImagePullBackOff" then 30 else 0
   | none => 0)

/-- The specification's risk formula before clamping:
`min(restarts*20, 60) + (40 if phase ≠ Running) + Σ per-container risk`. -/
def riskFormula (ps : PodStatus) (restarts : ℕ) : ℚ :=
  ((min (restarts * 20) 60 : ℕ) : ℚ) +
  (if ps.phase.getD "Unknown" ≠ "Running" then 40 else 0) +
  (ps.containerStatuses.map containerRisk).sum

theorem containerRiskStep_eq (acc : ℚ) (c : ContainerStatus) :
    containerRiskStep acc c = acc + containerRisk c := by
  unfold containerRiskStep containerRisk
  cases hw : c.waiting with
  | none => cases hr : c.ready <;> simp [hr]
  | some reason =>
      cases hr : c.ready <;> simp only [hr] <;> split <;> simp <;> try ring

theorem foldl_containerRiskStep (l : List ContainerStatus) (acc : ℚ) :
    l.foldl containerRiskStep acc = acc + (l.map containerRisk).sum := by
  induction l generalizing acc with
  | nil => simp
  | cons c cs ih =>
      simp only [List.foldl_cons, List.map_cons, List.sum_cons]
      rw [containerRiskStep_eq, ih]
      ring

theorem containerRisk_nonneg (c : ContainerStatus) : 0 ≤ containerRisk c := by
  unfold containerRisk
  cases c.waiting <;> cases c.ready <;> simp <;> split <;> norm_num

theorem riskFormula_nonneg (ps : PodStatus) (restarts : ℕ) :
    0 ≤ riskFormula ps restarts := by
  unfold riskFormula
  have h1 : (0 : ℚ) ≤ ((min (restarts * 20) 60 : ℕ) : ℚ) := by positivity
  have h2 : (0 : ℚ) ≤ (if ps.phase.getD "Unknown" ≠ "Running" then (40 : ℚ) else 0) := by
    split <;> norm_num
  have h3 : (0 : ℚ) ≤ (ps.containerStatuses.map containerRisk).sum :=
    List.sum_nonneg (by
      intro x hx
      rcases List.mem_map.mp hx with ⟨c, _, rfl⟩
      exact containerRisk_nonneg c)
  linarith

theorem calculateAiRiskScore_eq_min (ps : PodStatus) (restarts : ℕ) :
    calculateAiRiskScore ps restarts = min (riskFormula ps restarts) 100 := by
  unfold calculateAiRiskScore riskFormula
  dsimp only
  rw [foldl_containerRiskStep]
  split <;> (congr 1 <;> ring)

theorem calculateAiRiskScore_nonneg (ps : PodStatus) (restarts : ℕ) :
    0 ≤ calculateAiRiskScore ps restarts := by
  rw [calculateAiRiskScore_eq_min]
  exact le_min (riskFormula_nonneg ps restarts) (by norm_num)

theorem calculateAiRiskScore_le_100 (ps : PodStatus) (restarts : ℕ) :
    calculateAiRiskScore ps restarts ≤ 100 := by
  rw [calculateAiRiskScore_eq_min]
  exact min_le_right _ _

/-- An extreme pod status: 1000 restarts, non-`Running` phase, one not-ready
container crash-looping — the raw formula gives 150, the code clamps at
100. -/
def extremePodStatus : PodStatus :=
  { phase := some "Pending"
    conditions := []
    containerStatuses := [⟨1000, false, some "CrashLoopBackOff"⟩] }

/-- C2: for every pod status and restart count the per-unit risk score of
`_calculate_ai_risk_score` is the specification formula
`min(r*20,60) + (40 if phase ≠ Running) + 20·(not-ready containers)
 + 30·(containers waiting on CrashLoopBackOff/ImagePullBackOff)` clamped at
100, always lies in `[0,100]`, and the clamp is demonstrated at the extreme
input `restarts = 1000` with a crash-looping not-ready container. -/
theorem C2_risk_score_formula_and_bounds :
    (∀ (ps : PodStatus) (restarts : ℕ),
      calculateAiRiskScore ps restarts = min (riskFormula ps restarts) 100 ∧
      0 ≤ calculateAiRiskScore ps restarts ∧
      calculateAiRiskScore ps restarts ≤ 100) ∧
    calculateAiRiskScore extremePodStatus 1000 = 100 := by
  constructor
  · intro ps restarts
    exact ⟨calculateAiRiskScore_eq_min ps restarts,
      calculateAiRiskScore_nonneg ps restarts,
      calculateAiRiskScore_le_100 ps restarts⟩
  · have h : ("Pending" : String) ≠ "Running" := by decide
    norm_num [calculateAiRiskScore, containerRiskStep, extremePodStatus, min_def, h]

/-- `ready` of a pod: there exists a condition of type `Ready` with status
`"True"` (the source's early-`break` loop is first-match, hence `any`). -/
def podReady (ps : PodStatus) : Bool :=
  ps.conditions.any (fun c => c.ctype = "Ready" && c.status = "True")

/-- `restarts`: sum of `restartCount` over the pod's container statuses. -/
def podRestarts (ps : PodStatus) : ℕ :=
  (ps.containerStatuses.map ContainerStatus.restartCount).sum

/-- The `ai_risk_score` stored for a pod by `analyze_system_health`. -/
def podRisk (p : PodItem) : ℚ :=
  calculateAiRiskScore p.status (podRestarts p.status)

/-- The `analysis["pods"]` dict after the pod loop, keeping only the
`ai_risk_score` value the aggregate formula reads. -/
def podsDict (pods : List PodItem) : List (String × ℚ) :=
  pods.foldl (fun acc p => dictInsert acc p.name (podRisk p)) []

/-- The `health_score` computed by the cluster path of
`analyze_system_health` (`kubectl` returncode 0, listing `pods`): the initial
value 100 survives when no pod is listed, otherwise
`max(0, base_score - risk_penalty * 0.3)` with
`base_score = (ready_pods/total_pods)*100` and `risk_penalty` the mean of the
stored per-pod risk scores. -/
def analyzeClusterHealthScore (pods : List PodItem) : ℚ :=
  if pods.length > 0 then
    let baseScore : ℚ :=
      ((pods.filter fun p => podReady p.status).length : ℚ) / pods.length * 100
    let dict := podsDict pods
    let riskPenalty : ℚ :=
      if dict = [] then 0 else (dict.map Prod.snd).sum / dict.length
    max 0 (baseScore - riskPenalty * (3/10))
  else 100

/-- The specification's clamp to `[0,100]`. -/
def clamp0100 (q : ℚ) : ℚ := max 0 (min 100 q)

theorem dictInsert_fresh {α : Type} (d : List (String × α)) (k : String)
    (v : α) (h : ∀ e ∈ d, e.1 ≠ k) : dictInsert d k v = d ++ [(k, v)] := by
  unfold dictInsert
  have hcond : d.any (fun e => e.1 = k) = false := by
    rw [List.any_eq_false]
    intro e he
    simp only [decide_eq_true_eq]
    exact h e he
  rw [hcond]
  simp

theorem podsDictAux (pods : List PodItem) :
    ∀ d : List (String × ℚ),
    (pods.map PodItem.name).Nodup →
    (∀ p ∈ pods, ∀ e ∈ d, e.1 ≠ p.name) →
    pods.foldl (fun acc p => dictInsert acc p.name (podRisk p)) d
      = d ++ pods.map (fun p => (p.name, podRisk p)) := by
  induction pods with
  | nil => intro d _ _; simp
  | cons p ps ih =>
      intro d hnodup hfresh
      simp only [List.foldl_cons]
      have h1 : ∀ e ∈ d, e.1 ≠ p.name := fun e he =>
        hfresh p (List.mem_cons_self p ps) e he
      rw [dictInsert_fresh d p.name (podRisk p) h1]
      have hnd : (ps.map PodItem.name).Nodup := by
        simp only [List.map_cons, List.nodup_cons] at hnodup
        exact hnodup.2
      have hpn : p.name ∉ ps.map PodItem.name := by
        simp only [List.map_cons, List.nodup_cons] at hnodup
        exact hnodup.1
      rw [ih (d ++ [(p.name, podRisk p)]) hnd ?_]
      · simp
      · intro q hq e he
        rcases List.mem_append.mp he with hd | hp
        · exact hfresh q (List.mem_cons_of_mem p hq) e hd
        · have heq : e = (p.name, podRisk p) := by simpa using hp
          rw [heq]
          intro hcontra
          have hname : p.name = q.name := hcontra
          apply hpn
          rw [hname]
          exact List.mem_map_of_mem PodItem.name hq

theorem podsDict_of_nodup (pods : List PodItem)
    (h : (pods.map PodItem.name).Nodup) :
    podsDict pods = pods.map (fun p => (p.name, podRisk p)) := by
  simpa [podsDict] using podsDictAux pods [] h (by simp)

/-- The scenario of the specification: 3 pods, 2 ready, the third not ready
(`Ready` condition false) with 2 container restarts and phase `Running`. -/
def scenarioPods : List PodItem :=
  [⟨"app-a", ⟨some "Running", [⟨"Ready", "True"⟩], [⟨0, true, none⟩]⟩⟩,
   ⟨"app-b", ⟨some "Running", [⟨"Ready", "True"⟩], [⟨0, true, none⟩]⟩⟩,
   ⟨"app-c", ⟨some "Running", [⟨"Ready", "False"⟩], [⟨2, true, none⟩]⟩⟩]

/-- C1: on the cluster path of `analyze_system_health`, for every non-empty
pod listing (pod names distinct, as Kubernetes guarantees within a
namespace) the aggregate health score equals
`(ready/total)*100 - 0.3 * mean(risk)` clamped to `[0,100]`, and at the
spec's 3-pod scenario it is `188/3 ≈ 62.7` (within `0.1` of `62.7`). -/
theorem C1_cluster_aggregate_score :
    (∀ pods : List PodItem, pods ≠ [] → (pods.map PodItem.name).Nodup →
      analyzeClusterHealthScore pods =
        clamp0100
          ((((pods.filter fun p => podReady p.status).length : ℚ) / pods.length) * 100
            - (3/10) * ((pods.map podRisk).sum / pods.length))) ∧
    analyzeClusterHealthScore scenarioPods = 188/3 ∧
    |analyzeClusterHealthScore scenarioPods - 627/10| < 1/10 := by
  have hgen : ∀ pods : List PodItem, pods ≠ [] → (pods.map PodItem.name).Nodup →
      analyzeClusterHealthScore pods =
        clamp0100
          ((((pods.filter fun p => podReady p.status).length : ℚ) / pods.length) * 100
            - (3/10) * ((pods.map podRisk).sum / pods.length)) := by
    intro pods hne hnodup
    have hpos : 0 < pods.length := List.length_pos.mpr hne
    have hn : (0 : ℚ) < pods.length := by exact_mod_cast hpos
    unfold analyzeClusterHealthScore
    rw [if_pos hpos]
    dsimp only
    rw [podsDict_of_nodup pods hnodup]
    have hmapne : pods.map (fun p => (p.name, podRisk p)) ≠ [] := by
      simpa using hne
    rw [if_neg hmapne]
    have hsnd : ((pods.map (fun p => (p.name, podRisk p))).map Prod.snd)
        = pods.map podRisk := by
      simp
    rw [hsnd, List.length_map]
    set r : ℚ := ((pods.filter fun p => podReady p.status).length : ℚ) with hr
    set s : ℚ := (pods.map podRisk).sum with hs
    have hrle : r ≤ (pods.length : ℚ) := by
      rw [hr]
      exact_mod_cast List.length_filter_le _ pods
    have hbase : r / (pods.length : ℚ) * 100 ≤ 100 := by
      have h1 : r / (pods.length : ℚ) ≤ 1 := (div_le_one hn).mpr hrle
      nlinarith
    have hsnn : 0 ≤ s := by
      rw [hs]
      refine List.sum_nonneg ?_
      intro x hx
      rcases List.mem_map.mp hx with ⟨p, _, rfl⟩
      exact calculateAiRiskScore_nonneg p.status (podRestarts p.status)
    have hpen : 0 ≤ (3/10 : ℚ) * (s / pods.length) := by positivity
    have hle : r / (pods.length : ℚ) * 100 - (3/10) * (s / pods.length) ≤ 100 := by
      linarith
    unfold clamp0100
    rw [min_eq_right hle]
    congr 1
    ring
  have hval : analyzeClusterHealthScore scenarioPods = 188/3 := by
    rw [hgen scenarioPods (List.cons_ne_nil _ _) (by decide)]
    have h2 : ((scenarioPods.filter fun p => podReady p.status).length : ℚ) = 2 := by
      simp [scenarioPods, podReady]
    have h3 : ((scenarioPods.length : ℕ) : ℚ) = 3 := by
      simp [scenarioPods]
    have h4 : (scenarioPods.map podRisk).sum = 40 := by
      simp only [scenarioPods, podRisk, calculateAiRiskScore, containerRiskStep,
        podRestarts, min_def, List.map_cons, List.map_nil, List.sum_cons,
        List.sum_nil, List.foldl_cons, List.foldl_nil]
      norm_num
    rw [h2, h3, h4]
    unfold clamp0100
    norm_num [min_def, max_def]
  refine ⟨hgen, hval, ?_⟩
  rw [hval]
  norm_num [abs_of_nonpos]

/-- Witness for C1 at the concrete 3-pod scenario. -/
theorem C1_cluster_aggregate_score_witness :
    analyzeClusterHealthScore scenarioPods =
      clamp0100
        ((((scenarioPods.filter fun p => podReady p.status).length : ℚ)
            / scenarioPods.length) * 100
          - (3/10) * ((scenarioPods.map podRisk).sum / scenarioPods.length)) :=
  C1_cluster_aggregate_score.1 scenarioPods (List.cons_ne_nil _ _) (by decide)

/-- Module-level `PROM_URL` configuration of `ai-agent.py` (lines 36-50):
start from the `PROM_URL` environment variable, fall back to the
profile-derived `monitoring_endpoints["prometheus"]` when the variable is
falsy and the profile entry truthy, then — unconditionally — replace the
result by the mock URL when the detected environment is `SIMULATION`. -/
def resolvePromUrl (promUrlVar : Option String) (profPrometheus : Option String)
    (etype : EnvironmentType) : String :=
  let p0 := getenvD promUrlVar ""
  let p1 := if p0 = "" ∧ pyTruthy profPrometheus then getenvD profPrometheus "" else p0
  if etype = EnvironmentType.simulation then "http://mock-prometheus" else p1

/-- Module-level `GRAFANA_URL` configuration, symmetric to `PROM_URL`. -/
def resolveGrafanaUrl (grafanaUrlVar : Option String)
    (profGrafana : Option String) (etype : EnvironmentType) : String :=
  let p0 := getenvD grafanaUrlVar ""
  let p1 := if p0 = "" ∧ pyTruthy profGrafana then getenvD profGrafana "" else p0
  if etype = EnvironmentType.simulation then "http://mock-grafana" else p1

/-- Counterexample to C4: in the SIMULATED profile an explicit non-empty
Prometheus override `"http://custom:9090"` does NOT win — the resolved value
is the mock URL. -/
theorem C4_override_precedence_cex :
    resolvePromUrl (some "http://custom:9090") (some "http://default:9090")
        EnvironmentType.simulation = "http://mock-prometheus" ∧
    "http://mock-prometheus" ≠ "http://custom:9090" := by
  constructor
  · rfl
  · decide

/-- C4 (amended): for every profile other than SIMULATED a non-empty
explicit override wins, and only when the override is empty is the
profile-derived value used; in the SIMULATED profile the mock URL is always
used, even over an explicit override. -/
theorem C4_endpoint_precedence_amended (ov prof : Option String)
    (etype : EnvironmentType) :
    (etype ≠ EnvironmentType.simulation → getenvD ov "" ≠ "" →
      resolvePromUrl ov prof etype = getenvD ov "") ∧
    (etype ≠ EnvironmentType.simulation → getenvD ov "" = "" →
      resolvePromUrl ov prof etype =
        (if pyTruthy prof then getenvD prof "" else "")) ∧
    (etype = EnvironmentType.simulation →
      resolvePromUrl ov prof etype = "http://mock-prometheus") := by
  refine ⟨?_, ?_, ?_⟩
  · intro hety hov
    unfold resolvePromUrl
    dsimp only
    rw [if_neg hety, if_neg (fun hc => hov hc.1)]
  · intro hety hov
    unfold resolvePromUrl
    dsimp only
    rw [if_neg hety]
    cases hp : pyTruthy prof <;> simp [hov, hp]
  · intro hety
    unfold resolvePromUrl
    dsimp only
    rw [if_pos hety]

/-- Witness for the amended C4: a non-simulation profile resolves the
explicit override, resolves the profile-derived default when no override is
set, and the simulation profile resolves the mock even over an override. -/
theorem C4_endpoint_precedence_amended_witness :
    resolvePromUrl (some "http://custom:9090") (some "http://default:9090")
        EnvironmentType.github_actions = "http://custom:9090" ∧
    resolvePromUrl none (some "http://default:9090")
        EnvironmentType.github_actions = "http://default:9090" ∧
    resolvePromUrl (some "http://custom:9090") none
        EnvironmentType.simulation = "http://mock-prometheus" := by
  refine ⟨?_, ?_, ?_⟩
  · exact (C4_endpoint_precedence_amended (some "http://custom:9090")
      (some "http://default:9090") EnvironmentType.github_actions).1
      (by decide) (by decide)
  · have h := (C4_endpoint_precedence_amended none
      (some "http://default:9090") EnvironmentType.github_actions).2.1
      (by decide) rfl
    simpa [pyTruthy, getenvD] using h
  · exact (C4_endpoint_precedence_amended (some "http://custom:9090")
      none EnvironmentType.simulation).2.2 rfl

/-- The record built by `_analyze_trend_and_predict` (the float-formatted
`prediction` message string is presentation only and not carried). -/
structure TrendPrediction where
  metric : String
  trend : String
  changePercent : ℚ
  confidence : ℚ

/-- `recent_avg = sum(values[-3:]) / 3` (only evaluated for series of length
at least 3). -/
def recentAvg (values : List ℚ) : ℚ :=
  (values.drop (values.length - 3)).sum / 3

/-- `older_avg`: mean of everything but the last 3 samples, or `recent_avg`
again when the series has at most 3 samples. -/
def olderAvg (values : List ℚ) : ℚ :=
  if values.length > 3 then
    (values.take (values.length - 3)).sum / ((values.length - 3 : ℕ) : ℚ)
  else recentAvg values

/-- `trend_change`: percent change of the recent average against the older
average, with the division guarded — any non-positive older average yields
change 0 and the division is never evaluated. -/
def trendChange (values : List ℚ) : ℚ :=
  if olderAvg values > 0 then
    (recentAvg values - olderAvg values) / olderAvg values * 100
  else 0

/-- `_analyze_trend_and_predict`. -/
def analyzeTrendAndPredict (metricName : String) (values : List ℚ) :
    Option TrendPrediction :=
  if values.length < 3 then none
  else if |trendChange values| > 20 then
    some { metric := metricName
           trend := if trendChange values > 0 then "increasing" else "decreasing"
           changePercent := |trendChange values|
           confidence := min (9/10) (|trendChange values| / 50) }
  else none

/-- C7: `_analyze_trend_and_predict` returns none for every series of fewer
than 3 samples, returns none whenever the computed percent change is at most
20 in absolute value, and every returned prediction has confidence
`min(0.9, |change|/50)`. -/
theorem C7_trend_guard_and_confidence (name : String) (values : List ℚ) :
    (values.length < 3 → analyzeTrendAndPredict name values = none) ∧
    (|trendChange values| ≤ 20 → analyzeTrendAndPredict name values = none) ∧
    (∀ p : TrendPrediction, analyzeTrendAndPredict name values = some p →
      p.confidence = min (9/10) (|trendChange values| / 50)) := by
  refine ⟨?_, ?_, ?_⟩
  · intro h
    unfold analyzeTrendAndPredict
    rw [if_pos h]
  · intro h
    unfold analyzeTrendAndPredict
    split
    · rfl
    · rw [if_neg (not_lt.mpr h)]
  · intro p hp
    unfold analyzeTrendAndPredict at hp
    split at hp
    · exact absurd hp (by simp)
    · split at hp
      · simp only [Option.some.injEq] at hp
        rw [← hp]
      · exact absurd hp (by simp)

/-- Witness for C7: a 2-sample series yields none, a flat 3-sample series
(change 0) yields none, and a series with change 25% yields a prediction
whose confidence is `min(0.9, 25/50) = 1/2`. -/
theorem C7_trend_guard_and_confidence_witness :
    analyzeTrendAndPredict "cpu_trend" [1, 2] = none ∧
    analyzeTrendAndPredict "error_trend" [1, 1, 1] = none ∧
    (1/2 : ℚ) = min (9/10) (|trendChange [4, 4, 4, 5, 5, 5]| / 50) := by
  have hch : trendChange [4, 4, 4, 5, 5, 5] = 25 := by
    norm_num [trendChange, olderAvg, recentAvg]
  have hch3 : trendChange [1, 1, 1] = 0 := by
    norm_num [trendChange, olderAvg, recentAvg]
  refine ⟨(C7_trend_guard_and_confidence "cpu_trend" [1, 2]).1 (by norm_num),
    (C7_trend_guard_and_confidence "error_trend" [1, 1, 1]).2.1
      (by rw [hch3]; norm_num), ?_⟩
  have h := (C7_trend_guard_and_confidence "memory_trend"
    [4, 4, 4, 5, 5, 5]).2.2
    { metric := "memory_trend", trend := "increasing", changePercent := 25,
      confidence := 1/2 } ?_
  · exact h
  · unfold analyzeTrendAndPredict
    rw [if_neg (by norm_num), if_pos (by rw [hch]; norm_num)]
    rw [hch]
    norm_num

/-- C9: for every series of at least 3 samples whose older average is
non-positive — strictly negative included — the percent change is taken to
be 0, the guarded division is never evaluated, and the function returns
none. -/
theorem C9_older_average_guard (name : String) (values : List ℚ)
    (hlen : 3 ≤ values.length) (hold : olderAvg values ≤ 0) :
    analyzeTrendAndPredict name values = none := by
  have hch : trendChange values = 0 := by
    unfold trendChange
    rw [if_neg (not_lt.mpr hold)]
  unfold analyzeTrendAndPredict
  rw [if_neg (not_lt.mpr hlen), if_neg (by rw [hch]; norm_num)]

/-- Witness for C9 at a strictly negative series: 4 samples, older average
`-1 < 0`, result none. -/
theorem C9_older_average_guard_witness :
    analyzeTrendAndPredict "error_trend" [-1, -1, -1, -1] = none :=
  C9_older_average_guard "error_trend" [-1, -1, -1, -1] (by norm_num)
    (by norm_num [olderAvg, recentAvg])

/-- One recent Kubernetes event as read by `correlate_events_and_metrics`. -/
structure KubeEvent where
  time : String
  etype : String
  reason : String
  message : String
  obj : String
  deriving DecidableEq

/-- The correlation record appended by `_analyze_correlations` (its
float-formatted `description` message is presentation only and not
carried). -/
structure CorrelationRecord where
  ctype : String
  confidence : ℚ
  eventsCount : ℕ

/-- `_analyze_correlations`: filter the recent events down to the
warning-typed ones and emit one record when some exist and the `error_rate`
metric (0 when absent) is strictly above 0.01. -/
def analyzeCorrelations (events : List KubeEvent) (errorRate : Option ℚ) :
    List CorrelationRecord :=
  let errorEvents := events.filter (fun e => e.etype = "Warning")
  if errorEvents ≠ [] ∧ errorRate.getD 0 > 1/100 then
    [{ ctype := "event_metric_correlation", confidence := 9/10,
       eventsCount := errorEvents.length }]
  else []

/-- C8: `_analyze_correlations` emits a correlation record exactly when at
least one warning-type event co-occurs with an error-rate metric strictly
above 0.01/sec, and every emitted record carries the fixed confidence
0.9. -/
theorem C8_correlation_emission (events : List KubeEvent)
    (errorRate : Option ℚ) :
    (analyzeCorrelations events errorRate ≠ [] ↔
      ((∃ e ∈ events, e.etype = "Warning") ∧ errorRate.getD 0 > 1/100)) ∧
    (∀ r ∈ analyzeCorrelations events errorRate, r.confidence = 9/10) := by
  have hfil : (events.filter (fun e => e.etype = "Warning") ≠ [])
      ↔ ∃ e ∈ events, e.etype = "Warning" := by
    constructor
    · intro h
      rcases List.exists_mem_of_ne_nil _ h with ⟨e, he⟩
      have hm := List.mem_filter.mp he
      exact ⟨e, hm.1, by simpa using hm.2⟩
    · rintro ⟨e, he, hw⟩
      intro hnil
      have hm : e ∈ events.filter (fun e => e.etype = "Warning") :=
        List.mem_filter.mpr ⟨he, by simpa using hw⟩
      rw [hnil] at hm
      simp at hm
  unfold analyzeCorrelations
  dsimp only
  constructor
  · split
    case isTrue h =>
      exact iff_of_true (List.cons_ne_nil _ _) ⟨hfil.mp h.1, h.2⟩
    case isFalse h =>
      refine iff_of_false (by simp) ?_
      rintro ⟨hex, hrate⟩
      exact h ⟨hfil.mpr hex, hrate⟩
  · split
    · intro r hr
      rw [List.mem_singleton.mp hr]
    · intro r hr
      simp at hr

/-- Concrete event list for the C8 witness: one warning event. -/
def c8Events : List KubeEvent :=
  [⟨"2025-01-01T00:00:00Z", "Warning", "BackOff", "Back-off restarting", "pod-1"⟩]

/-- Witness for C8: with one warning event and error rate 0.02 a record is
emitted and its confidence is 0.9. -/
theorem C8_correlation_emission_witness :
    analyzeCorrelations c8Events (some (1/50)) ≠ [] ∧
    ({ ctype := "event_metric_correlation", confidence := 9/10,
       eventsCount := 1 } : CorrelationRecord).confidence = 9/10 := by
  have hval : analyzeCorrelations c8Events (some (1/50)) =
      [{ ctype := "event_metric_correlation", confidence := 9/10,
         eventsCount := 1 }] := by
    unfold analyzeCorrelations
    dsimp only
    rw [if_pos ⟨by simp [c8Events], by norm_num⟩]
    simp [c8Events]
  constructor
  · exact (C8_correlation_emission c8Events (some (1/50))).1.mpr
      ⟨⟨⟨"2025-01-01T00:00:00Z", "Warning", "BackOff", "Back-off restarting",
          "pod-1"⟩, by simp [c8Events], rfl⟩, by norm_num⟩
  · exact (C8_correlation_emission c8Events (some (1/50))).2 _
      (by rw [hval]; exact List.mem_singleton.mpr rfl)

/-- `_calculate_explanation_confidence`: the two record groups are
represented by the sequences of their `confidence` fields, the only field
the function reads.  The `confidence_factors` list collects the average of
each non-empty group; the result is the mean of the factors, 0.5 when both
groups are empty. -/
def calculateExplanationConfidence (rootConfs contribConfs : List ℚ) : ℚ :=
  let factors : List ℚ :=
    (if rootConfs ≠ [] then [rootConfs.sum / rootConfs.length] else []) ++
    (if contribConfs ≠ [] then [contribConfs.sum / contribConfs.length] else [])
  if factors ≠ [] then factors.sum / factors.length else 1/2

/-- C10: when exactly one of the two groups (root-cause entries or
contributing-factor entries) is non-empty, the aggregate confidence equals
the average confidence of that single group. -/
theorem C10_single_group_confidence (rootConfs contribConfs : List ℚ) :
    (rootConfs ≠ [] → contribConfs = [] →
      calculateExplanationConfidence rootConfs contribConfs =
        rootConfs.sum / rootConfs.length) ∧
    (rootConfs = [] → contribConfs ≠ [] →
      calculateExplanationConfidence rootConfs contribConfs =
        contribConfs.sum / contribConfs.length) := by
  constructor
  · intro h1 h2
    simp [calculateExplanationConfidence, h1, h2]
  · intro h1 h2
    simp [calculateExplanationConfidence, h1, h2]

/-- Witness for C10 at one-element groups on either side. -/
theorem C10_single_group_confidence_witness :
    calculateExplanationConfidence [(9 : ℚ)/10] [] =
      ([(9 : ℚ)/10].sum / ([(9 : ℚ)/10].length : ℚ)) ∧
    calculateExplanationConfidence [] [(4 : ℚ)/5] =
      ([(4 : ℚ)/5].sum / ([(4 : ℚ)/5].length : ℚ)) :=
  ⟨(C10_single_group_confidence [(9 : ℚ)/10] []).1 (List.cons_ne_nil _ _) rfl,
   (C10_single_group_confidence [] [(4 : ℚ)/5]).2 rfl (List.cons_ne_nil _ _)⟩

/-- The per-pod fields `main` reads when counting critical issues. -/
structure MainPodInfo where
  ready : Bool
  aiRiskScore : ℚ
  phase : String

/-- The critical-issue count of `main`: one per not-ready pod plus one per
pod with AI risk score above 80 (a pod can contribute both). -/
def criticalIssues (pods : List (String × MainPodInfo)) : ℕ :=
  pods.foldl
    (fun n kp =>
      let n1 := if !kp.2.ready then n + 1 else n
      if kp.2.aiRiskScore > 80 then n1 + 1 else n1)
    0

/-- The process exit status of one run of `main` in `ai-agent.py`, as a
function of the run's state: `simMode` (simulation mode, or no agent),
`blocking` (`BLOCKING_MODE`), the health score and pod map of the health
analysis, and whether the AI-analysis step raises.

On the simulation path `main` executes `return exit_code` before ever
reaching `sys.exit(exit_code)`; `asyncio.run` discards the returned value,
so the interpreter exits with status 0 regardless of blocking mode, health
score or pod state (the locally computed `exit_code` is itself always 0
there, because `critical_issues` is still 0 when the branch runs).  On the
non-simulation path an exception inside the `try` block leads to
`sys.exit(2)`; otherwise blocking mode exits 1 on critical issues or a
health score below 70, and 0 in every remaining case. -/
def mainExitCode (simMode blocking : Bool) (healthScore : ℚ)
    (pods : List (String × MainPodInfo)) (agentRaises : Bool) : ℕ :=
  if simMode then 0
  else if agentRaises then 2
  else if blocking then
    if criticalIssues pods > 0 then 1
    else if healthScore < 70 then 1
    else 0
  else 0

/-- A simulated-path pod state reachable by the generator: 3 pods, one not
ready, giving simulated health score `int((2/3)*100) = 66 < 70`. -/
def c5SimPods : List (String × MainPodInfo) :=
  [("app-api-1001", ⟨false, 60, "Pending"⟩),
   ("app-api-1002", ⟨true, 10, "Running"⟩),
   ("app-api-1003", ⟨true, 5, "Running"⟩)]

/-- Counterexample to C5: on the simulation path with blocking mode enabled,
a health score of 66 (below the threshold 70) and a not-ready pod, the
process still exits 0 — the claimed "exit 1 iff blocking and (critical
issues or score < 70)" equivalence fails there. -/
theorem C5_exit_code_cex :
    ¬ (mainExitCode true true 66 c5SimPods false = 1 ↔
        (criticalIssues c5SimPods > 0 ∨ (66 : ℚ) < 70)) := by
  intro h
  have h1 : mainExitCode true true 66 c5SimPods false = 1 :=
    h.mpr (Or.inr (by norm_num))
  have h0 : mainExitCode true true 66 c5SimPods false = 0 := rfl
  rw [h0] at h1
  exact absurd h1 (by norm_num)

/-- C5 (amended): on the non-simulation path the exit code is 2 exactly on
an unhandled exception, and absent an exception it is 1 iff blocking mode is
enabled and there are critical issues or the score is below 70, else 0; on
the simulation path the process always exits 0, even when blocking mode is
enabled and the score is below the threshold. -/
theorem C5_exit_code_amended (blocking : Bool) (healthScore : ℚ)
    (pods : List (String × MainPodInfo)) (agentRaises : Bool) :
    (agentRaises = true →
      mainExitCode false blocking healthScore pods agentRaises = 2) ∧
    (agentRaises = false →
      (mainExitCode false blocking healthScore pods agentRaises = 1 ↔
        (blocking = true ∧ (criticalIssues pods > 0 ∨ healthScore < 70)))) ∧
    (agentRaises = false →
      ¬ (blocking = true ∧ (criticalIssues pods > 0 ∨ healthScore < 70)) →
      mainExitCode false blocking healthScore pods agentRaises = 0) ∧
    mainExitCode true blocking healthScore pods agentRaises = 0 := by
  refine ⟨?_, ?_, ?_, rfl⟩
  · intro h
    simp [mainExitCode, h]
  · intro h
    subst h
    cases blocking with
    | false => simp [mainExitCode]
    | true =>
        by_cases hc : criticalIssues pods > 0
        · simp [mainExitCode, hc]
        · by_cases hs : healthScore < 70
          · simp [mainExitCode, hc, hs]
          · simp [mainExitCode, hc, hs]
  · intro h hnot
    subst h
    cases blocking with
    | false => simp [mainExitCode]
    | true =>
        push_neg at hnot
        rcases hnot rfl with ⟨hc, hs⟩
        have hc0 : ¬ (criticalIssues pods > 0) := by omega
        have hs0 : ¬ (healthScore < 70) := not_lt.mpr hs
        simp [mainExitCode, hc0, hs0]

/-- Witness for the amended C5: blocking run with score 65 exits 1, raising
run exits 2, healthy non-blocking-relevant run exits 0, simulated run exits
0. -/
theorem C5_exit_code_amended_witness :
    mainExitCode false true 65 [] false = 1 ∧
    mainExitCode false true 95 [] true = 2 ∧
    mainExitCode false true 95 [] false = 0 ∧
    mainExitCode true true 65 [] false = 0 := by
  refine ⟨?_, ?_, ?_, ?_⟩
  · exact ((C5_exit_code_amended true 65 [] false).2.1 rfl).mpr
      ⟨rfl, Or.inr (by norm_num)⟩
  · exact (C5_exit_code_amended true 95 [] true).1 rfl
  · refine (C5_exit_code_amended true 95 [] false).2.2.1 rfl ?_
    rintro ⟨_, hor⟩
    rcases hor with hc | hs
    · exact absurd hc (by decide)
    · exact absurd hs (by norm_num)
  · exact (C5_exit_code_amended true 65 [] false).2.2.2

/-- `listIsPrefix p l`: the character list `p` is a prefix of `l`. -/
def listIsPrefix : List Char → List Char → Bool
  | [], _ => true
  | _ :: _, [] => false
  | p :: ps, c :: cs => p = c && listIsPrefix ps cs

/-- `listContainsSub pat l`: `pat` occurs as a contiguous run in `l`. -/
def listContainsSub (pat : List Char) : List Char → Bool
  | [] => listIsPrefix pat []
  | c :: cs => listIsPrefix pat (c :: cs) || listContainsSub pat cs

/-- Substring test on strings, via their character lists. -/
def strContains (s pat : String) : Bool :=
  listContainsSub pat.toList s.toList

/-- Tokens whose occurrence in a record's text marks it as synthetic — the
vocabulary the agent itself uses on its analysis-level simulation markers
(`simulation_mode`, `simulation_engine`, mock URLs) plus the spec's
`Synthetic` phase. -/
def simMarkerTokens : List String :=
  ["simul", "Simul", "SIMUL", "synthetic", "Synthetic", "mock", "Mock"]

/-- A bundle of strings carries a simulation marker when any of them
contains one of the marker tokens. -/
def carriesSimMarker (strs : List String) : Bool :=
  strs.any (fun s => simMarkerTokens.any (fun t => strContains s t))

/-- The random draws consumed for one simulated pod in
`_generate_simulation_health_analysis`, with the ranges the `random` calls
guarantee captured by `validSimPodDraw`. -/
structure SimPodDraw where
  namePrefix : String
  nameNum : ℕ
  readyDraw : Bool
  restartsDraw : ℕ
  phaseDraw : String
  riskDraw : ℕ
  ageDraw : ℕ

/-- The contract of the `random.choice` / `random.randint` /
`random.random` calls producing one pod's draws. -/
def validSimPodDraw (d : SimPodDraw) : Prop :=
  d.namePrefix ∈ ["frontend", "backend", "api", "worker"] ∧
  1000 ≤ d.nameNum ∧ d.nameNum ≤ 9999 ∧
  d.restartsDraw ≤ 2 ∧
  d.phaseDraw ∈ ["Pending", "Failed"] ∧
  (d.readyDraw = true → d.riskDraw ≤ 30) ∧
  (d.readyDraw = false → 40 ≤ d.riskDraw ∧ d.riskDraw ≤ 80) ∧
  10 ≤ d.ageDraw ∧ d.ageDraw ≤ 1440

/-- The per-unit record stored in `analysis["pods"]` on the simulated
path. -/
structure SimPodHealth where
  phase : String
  ready : Bool
  restarts : ℕ
  age : ℕ
  aiRiskScore : ℕ
  containerIssues : List String
  deriving DecidableEq

/-- The generated pod name `f"app-{prefix}-{number}"`. -/
def simPodName (d : SimPodDraw) : String :=
  "app-" ++ d.namePrefix ++ "-" ++ toString d.nameNum

/-- One simulated pod record, exactly as the generator builds it: phase
`Running` when ready (a drawn real phase otherwise), restarts only when not
ready, and the fixed `ImagePullBackOff` issue string when not ready. -/
def genSimPod (d : SimPodDraw) : SimPodHealth :=
  { phase := if d.readyDraw then "Running" else d.phaseDraw
    ready := d.readyDraw
    restarts := if !d.readyDraw then d.restartsDraw else 0
    age := d.ageDraw
    aiRiskScore := d.riskDraw
    containerIssues :=
      if d.readyDraw then [] else ["ImagePullBackOff: Failed to pull image"] }

/-- The textual content of a per-unit record: its phase and its container
issue strings (its other fields are a boolean and numbers). -/
def simPodStrings (p : SimPodHealth) : List String :=
  p.phase :: p.containerIssues

/-- An `ai_insights` record. -/
structure Insight where
  itype : String
  message : String
  confidence : ℚ
  impact : String
  deriving DecidableEq

/-- The textual content of an insight record. -/
def insightStrings (i : Insight) : List String :=
  [i.itype, i.message, i.impact]

/-- A `predictions` record of the simulated path. -/
structure SimPrediction where
  ptype : String
  message : String
  probability : ℚ
  timeframe : String

/-- A `recommendations` record. -/
structure Recommendation where
  priority : String
  action : String
  description : String
  estimatedImpact : String

/-- A `traceability` record of the simulated path (its timestamp is run
time, not data). -/
structure SimTraceability where
  source : String
  pipelineCorrelation : String
  dataPoints : ℕ
  simulationSeed : ℕ

/-- The parts of the analysis dict written by
`_generate_simulation_health_analysis`. -/
structure SimAnalysis where
  pods : List (String × SimPodHealth)
  healthScore : ℕ
  aiInsights : List Insight
  predictions : List SimPrediction
  recommendations : List Recommendation
  traceability : List SimTraceability

/-- `_generate_simulation_health_analysis`, with the random draws passed in
explicitly: the per-pod draws as a list (whose length is the
`random.randint(3, 8)` unit-count draw) and the trailing seed draw.  The
unused `base_health = random.randint(70, 95)` draw of the source is not
consumed by anything and is not carried.  `int((ready/num)*100)` is modelled
as natural floor division: for `ready ≤ num ≤ 8` the float computation of
the source truncates to exactly that value.  `envTypeValue` is
`env_config.env_type.value`, which is `"simulation"` whenever this path is
reached (`analyze_system_health` calls it only for `SIMULATION`
environments). -/
def genSimAnalysis (envTypeValue pipelineId : String)
    (draws : List SimPodDraw) (seedDraw : ℕ) : SimAnalysis :=
  let pods := draws.foldl
    (fun acc p => dictInsert acc (simPodName p) (genSimPod p)) []
  let numPods := draws.length
  let readyPods := (pods.filter (fun kp => kp.2.ready)).length
  let score := if numPods > 0 then readyPods * 100 / numPods else 100
  { pods := pods
    healthScore := score
    aiInsights :=
      [{ itype := "simulation_mode"
         message := "Running in simulation mode - data is generated for demonstration"
         confidence := 1
         impact := "info" },
       { itype := "environment_detection"
         message := "Environment auto-detected as " ++ envTypeValue
         confidence := 1
         impact := "info" }]
    predictions :=
      if score < 90 then
        [{ ptype := "performance_trend"
           message := "System performance trending stable with minor fluctuations expected"
           probability := 3/4
           timeframe := "next 30 minutes" }]
      else []
    recommendations :=
      [{ priority := "info"
         action := "simulation_validation"
         description := "Simulation mode is perfect for testing AI observability without infrastructure"
         estimatedImpact := "educational" },
       { priority := "medium"
         action := "setup_real_monitoring"
         description := "Consider setting up real monitoring endpoints for production use"
         estimatedImpact := "high" }]
    traceability :=
      [{ source := "simulation_engine"
         pipelineCorrelation := pipelineId
         dataPoints := pods.length
         simulationSeed := seedDraw }] }

theorem dictInsert_length_le {α : Type} (d : List (String × α)) (k : String)
    (v : α) : (dictInsert d k v).length ≤ d.length + 1 := by
  unfold dictInsert
  split
  · simp
  · simp

theorem foldl_dictInsert_length_le {α β : Type} (key : α → String)
    (val : α → β) (l : List α) :
    ∀ d : List (String × β),
    (l.foldl (fun acc p => dictInsert acc (key p) (val p)) d).length
      ≤ d.length + l.length := by
  induction l with
  | nil => intro d; simp
  | cons p ps ih =>
      intro d
      simp only [List.foldl_cons, List.length_cons]
      have h1 := ih (dictInsert d (key p) (val p))
      have h2 := dictInsert_length_le d (key p) (val p)
      omega

theorem foldl_dictInsert_nodup {α β : Type} (key : α → String) (val : α → β)
    (l : List α) :
    ∀ d : List (String × β),
    (l.map key).Nodup →
    (∀ p ∈ l, ∀ e ∈ d, e.1 ≠ key p) →
    l.foldl (fun acc p => dictInsert acc (key p) (val p)) d
      = d ++ l.map (fun p => (key p, val p)) := by
  induction l with
  | nil => intro d _ _; simp
  | cons p ps ih =>
      intro d hnodup hfresh
      simp only [List.foldl_cons]
      have h1 : ∀ e ∈ d, e.1 ≠ key p := fun e he =>
        hfresh p (List.mem_cons_self p ps) e he
      rw [dictInsert_fresh d (key p) (val p) h1]
      have hnd : (ps.map key).Nodup := by
        simp only [List.map_cons, List.nodup_cons] at hnodup
        exact hnodup.2
      have hpn : key p ∉ ps.map key := by
        simp only [List.map_cons, List.nodup_cons] at hnodup
        exact hnodup.1
      rw [ih (d ++ [(key p, val p)]) hnd ?_]
      · simp
      · intro q hq e he
        rcases List.mem_append.mp he with hd | hp2
        · exact hfresh q (List.mem_cons_of_mem p hq) e hd
        · have heq : e = (key p, val p) := by simpa using hp2
          rw [heq]
          intro hcontra
          have hname : key p = key q := hcontra
          apply hpn
          rw [hname]
          exact List.mem_map_of_mem key hq

/-- A valid ready-pod draw for the counterexample. -/
def c6ReadyDraw : SimPodDraw :=
  { namePrefix := "api", nameNum := 1234, readyDraw := true,
    restartsDraw := 0, phaseDraw := "Pending", riskDraw := 10, ageDraw := 120 }

/-- A valid not-ready-pod draw for the counterexample. -/
def c6UnreadyDraw : SimPodDraw :=
  { namePrefix := "worker", nameNum := 2345, readyDraw := false,
    restartsDraw := 2, phaseDraw := "Failed", riskDraw := 60, ageDraw := 30 }

/-- Counterexample to C6: simulated per-unit records carry no synthetic
marker — both a ready pod (phase `Running`, no issues) and a not-ready pod
(phase `Failed`, `ImagePullBackOff` issue) produced by valid draws are
textually indistinguishable from real telemetry. -/
theorem C6_sim_marker_cex :
    validSimPodDraw c6ReadyDraw ∧
    carriesSimMarker (simPodStrings (genSimPod c6ReadyDraw)) = false ∧
    validSimPodDraw c6UnreadyDraw ∧
    carriesSimMarker (simPodStrings (genSimPod c6UnreadyDraw)) = false := by
  refine ⟨?_, ?_, ?_, ?_⟩
  · unfold validSimPodDraw
    decide
  · decide
  · unfold validSimPodDraw
    decide
  · decide

/-- C6 (amended): on the simulated path every emitted insight carries a
simulation marker and the traceability record names the simulation engine as
source, the health score lies in [0,100] (it is a natural number, hence the
lower bound), the emitted per-unit map has at most as many entries as the
3-to-8 unit-count draw, and exactly that many — hence between 3 and 8 —
when the independently drawn pod names are pairwise distinct.  (Per-unit
records themselves carry no marker; see the counterexample.) -/
theorem C6_simulated_path_amended (envTypeValue pipelineId : String)
    (draws : List SimPodDraw) (seedDraw : ℕ)
    (henv : envTypeValue = "simulation")
    (hlo : 3 ≤ draws.length) (hhi : draws.length ≤ 8) :
    (∀ i ∈ (genSimAnalysis envTypeValue pipelineId draws seedDraw).aiInsights,
      carriesSimMarker (insightStrings i) = true) ∧
    (∀ t ∈ (genSimAnalysis envTypeValue pipelineId draws seedDraw).traceability,
      strContains t.source "simul" = true) ∧
    (genSimAnalysis envTypeValue pipelineId draws seedDraw).healthScore ≤ 100 ∧
    (genSimAnalysis envTypeValue pipelineId draws seedDraw).pods.length
      ≤ draws.length ∧
    ((draws.map simPodName).Nodup →
      (genSimAnalysis envTypeValue pipelineId draws seedDraw).pods.length
          = draws.length ∧
      3 ≤ (genSimAnalysis envTypeValue pipelineId draws seedDraw).pods.length ∧
      (genSimAnalysis envTypeValue pipelineId draws seedDraw).pods.length ≤ 8) := by
  subst henv
  have hpods : (genSimAnalysis "simulation" pipelineId draws seedDraw).pods =
      draws.foldl (fun acc p => dictInsert acc (simPodName p) (genSimPod p)) [] :=
    rfl
  have hdlen : (genSimAnalysis "simulation" pipelineId draws seedDraw).pods.length
      ≤ draws.length := by
    rw [hpods]
    simpa using foldl_dictInsert_length_le simPodName genSimPod draws []
  refine ⟨?_, ?_, ?_, hdlen, ?_⟩
  · intro i hi
    have hins : (genSimAnalysis "simulation" pipelineId draws seedDraw).aiInsights =
        [{ itype := "simulation_mode"
           message := "Running in simulation mode - data is generated for demonstration"
           confidence := 1
           impact := "info" },
         { itype := "environment_detection"
           message := "Environment auto-detected as " ++ "simulation"
           confidence := 1
           impact := "info" }] := rfl
    rw [hins] at hi
    simp only [List.mem_cons, List.not_mem_nil, or_false] at hi
    rcases hi with hi | hi
    · rw [hi]
      decide
    · rw [hi]
      decide
  · intro t ht
    have htr : (genSimAnalysis "simulation" pipelineId draws seedDraw).traceability =
        [{ source := "simulation_engine"
           pipelineCorrelation := pipelineId
           dataPoints := (genSimAnalysis "simulation" pipelineId draws seedDraw).pods.length
           simulationSeed := seedDraw }] := rfl
    rw [htr] at ht
    rw [List.mem_singleton.mp ht]
    show strContains "simulation_engine" "simul" = true
    decide
  · have hscore : (genSimAnalysis "simulation" pipelineId draws seedDraw).healthScore =
        if draws.length > 0 then
          ((draws.foldl (fun acc p => dictInsert acc (simPodName p) (genSimPod p))
            []).filter (fun kp => kp.2.ready)).length * 100 / draws.length
        else 100 := rfl
    rw [hscore]
    split
    case isTrue hn =>
      have hready : ((draws.foldl
          (fun acc p => dictInsert acc (simPodName p) (genSimPod p)) []).filter
            (fun kp => kp.2.ready)).length ≤ draws.length := by
        refine le_trans (List.length_filter_le _ _) ?_
        simpa using foldl_dictInsert_length_le simPodName genSimPod draws []
      have h1 : ((draws.foldl
          (fun acc p => dictInsert acc (simPodName p) (genSimPod p)) []).filter
            (fun kp => kp.2.ready)).length * 100 / draws.length
          ≤ draws.length * 100 / draws.length :=
        Nat.div_le_div_right (Nat.mul_le_mul_right 100 hready)
      rwa [Nat.mul_div_cancel_left 100 hn] at h1
    case isFalse => exact le_refl 100
  · intro hnodup
    have heq : (genSimAnalysis "simulation" pipelineId draws seedDraw).pods =
        draws.map (fun p => (simPodName p, genSimPod p)) := by
      rw [hpods]
      simpa using foldl_dictInsert_nodup simPodName genSimPod draws [] hnodup
        (by simp)
    have hlen : (genSimAnalysis "simulation" pipelineId draws seedDraw).pods.length
        = draws.length := by
      rw [heq, List.length_map]
    exact ⟨hlen, by omega, by omega⟩

/-- Concrete draws for the C6 witness: three valid pods with distinct
names. -/
def c6Draws : List SimPodDraw :=
  [{ namePrefix := "frontend", nameNum := 1001, readyDraw := true,
     restartsDraw := 0, phaseDraw := "Pending", riskDraw := 10, ageDraw := 100 },
   { namePrefix := "backend", nameNum := 1002, readyDraw := true,
     restartsDraw := 0, phaseDraw := "Pending", riskDraw := 5, ageDraw := 200 },
   { namePrefix := "api", nameNum := 1003, readyDraw := false,
     restartsDraw := 2, phaseDraw := "Failed", riskDraw := 60, ageDraw := 300 }]

/-- Witness for the amended C6 at three concrete draws: the first insight
carries the marker, the score is bounded and the pod map has exactly the 3
drawn entries. -/
theorem C6_simulated_path_amended_witness :
    carriesSimMarker (insightStrings
      { itype := "simulation_mode"
        message := "Running in simulation mode - data is generated for demonstration"
        confidence := 1
        impact := "info" }) = true ∧
    (genSimAnalysis "simulation" "pipe-1" c6Draws 4242).healthScore ≤ 100 ∧
    (genSimAnalysis "simulation" "pipe-1" c6Draws 4242).pods.length = 3 := by
  have h := C6_simulated_path_amended "simulation" "pipe-1" c6Draws 4242 rfl
    (by norm_num [c6Draws]) (by norm_num [c6Draws])
  refine ⟨?_, h.2.2.1, ?_⟩
  · exact h.1 _ (by simp [genSimAnalysis])
  · exact (h.2.2.2.2 (by decide)).1
